import Mathlib

/-!
Verification of the apx.rest OpenAPI client generator.

This file shallowly embeds the generator (`dist/generator/Generator.js`) and
the runtime base client (`ApiClient.ts`) and proves or refutes the frozen
claims about them.  Raw OpenAPI documents are modelled structurally; JS
string operations are modelled by executable Lean functions; JS `undefined`
is modelled by `Option`, JS falsiness of strings by emptiness/absence
checks, and JS template interpolation of `undefined` by the literal string
"undefined".
-/

namespace Apx

/-- Split a character list at every character satisfying `p`, keeping empty
segments (the semantics of a JS `split` on a single-character class).
`acc` is the current segment, reversed. -/
def splitByAux (p : Char → Bool) : List Char → List Char → List String
  | [], acc => [String.mk acc.reverse]
  | c :: rest, acc =>
    if p c then String.mk acc.reverse :: splitByAux p rest []
    else splitByAux p rest (c :: acc)

/-- JS `s.split(<single-character class>)`. -/
def strSplitBy (p : Char → Bool) (s : String) : List String :=
  splitByAux p s.data []

/-- JS `s.startsWith(pre)`. -/
def jsStartsWith (s pre : String) : Bool :=
  pre.data.isPrefixOf s.data

/-- JS `s.split("/").pop()`: the last `/`-separated segment of a string. -/
def jsLastSeg (s : String) : String :=
  (strSplitBy (fun c => c == '/') s).getLastD ""

/-- JS `s.charAt(0).toUpperCase() + s.slice(1)`. -/
def jsCapitalize (s : String) : String :=
  match s.data with
  | [] => ""
  | c :: cs => String.mk (c.toUpper :: cs)

/-- JS `s.charAt(0).toLowerCase() + s.slice(1)`. -/
def jsLowerFirst (s : String) : String :=
  match s.data with
  | [] => ""
  | c :: cs => String.mk (c.toLower :: cs)

/-- JS `s.substring(1)`. -/
def jsDropFirst (s : String) : String :=
  String.mk (s.data.drop 1)

/-- JS truthiness of a possibly-absent string (`undefined` and `""` are falsy). -/
def jsTruthyStr (o : Option String) : Bool :=
  match o with
  | some s => !(s == "")
  | none => false

/-- JS `o || d` for a possibly-absent string (`undefined` and `""` fall back). -/
def jsOrStr (o : Option String) (d : String) : String :=
  match o with
  | some s => if s == "" then d else s
  | none => d

/-- JS template interpolation of a possibly-absent string: `undefined`
interpolates as the text "undefined". -/
def jsInterp (o : Option String) : String :=
  o.getD "undefined"

/-- Replace the first occurrence of `pat` by `repl` in a character list
(JS `String.prototype.replace` with a string pattern). -/
def listReplaceFirst (pat repl : List Char) : List Char → List Char
  | [] => if pat == [] then repl else []
  | c :: rest =>
    if pat.isPrefixOf (c :: rest) then repl ++ (c :: rest).drop pat.length
    else c :: listReplaceFirst pat repl rest

/-- JS `s.replace(pat, repl)` (first occurrence only). -/
def jsReplaceFirst (s pat repl : String) : String :=
  String.mk (listReplaceFirst pat.data repl.data s.data)

/-- JS `str.split(/[^a-zA-Z0-9]/g)` (Generator.js `splitAtUrlChars`):
split at every non-alphanumeric character, keeping empty segments. -/
def splitAtUrlChars (str : String) : List String :=
  strSplitBy (fun c => !c.isAlphanum) str

/-- Generator.js `stripUrlChars`: split at URL characters, capitalize each
segment, and concatenate. -/
def stripUrlChars (str : String) : String :=
  String.join ((splitAtUrlChars str).map jsCapitalize)

def lbraceChar : Char := Char.ofNat 123

def rbraceChar : Char := Char.ofNat 125

def underscoreChar : Char := Char.ofNat 95

/-- A character matched by the JS regex class `\w`. -/
def isWordChar (c : Char) : Bool :=
  c.isAlphanum || c == underscoreChar

/-- Scanner for the JS regex `/{\w+}/g` used by `ApiPath.pathParams`,
returning the contents of every matched placeholder in order.  After a
successful match the scan resumes just after the opening brace, which finds
the same matches as resuming after the closing brace because a matched
region contains no further opening brace. -/
def pathParamsAux : List Char → List String
  | [] => []
  | c :: rest =>
    if c == lbraceChar then
      let w := rest.takeWhile isWordChar
      match rest.dropWhile isWordChar with
      | d :: _ =>
        if d == rbraceChar && !w.isEmpty then String.mk w :: pathParamsAux rest
        else pathParamsAux rest
      | [] => pathParamsAux rest
    else pathParamsAux rest

/-- Generator.js `ApiPath.pathParams`: every `{token}` placeholder of an
endpoint template, braces stripped. -/
def jsMatchPathParams (s : String) : List String :=
  pathParamsAux s.data

/-! ## The `Property` class (Generator.js lines 695-800) -/

/-- Generator.js `EComponentType`. -/
inductive EComponentType where
  | Request
  | Response
  | Model
deriving DecidableEq

/-- Generator.js `Property`: a resolved schema property.  `items` holds the
array element property, `additionalProperties` the dictionary value
property; both are built by the constructor from the raw nested nodes.
Absent JS fields are `none` (or `false` for the boolean fields, matching
every truthiness test performed on them). -/
inductive Property where
  | mk (name : String) (type : Option String) (nullable : Bool)
       (format : Option String) (ref : Option String) (referenceIsEnum : Bool)
       (items : Option Property) (additionalProperties : Option Property)

def Property.name : Property → String
  | .mk n _ _ _ _ _ _ _ => n

def Property.type : Property → Option String
  | .mk _ t _ _ _ _ _ _ => t

def Property.nullable : Property → Bool
  | .mk _ _ nl _ _ _ _ _ => nl

def Property.format : Property → Option String
  | .mk _ _ _ f _ _ _ _ => f

def Property.ref : Property → Option String
  | .mk _ _ _ _ r _ _ _ => r

def Property.referenceIsEnum : Property → Bool
  | .mk _ _ _ _ _ re _ _ => re

def Property.items : Property → Option Property
  | .mk _ _ _ _ _ _ it _ => it

def Property.additionalProperties : Property → Option Property
  | .mk _ _ _ _ _ _ _ ap => ap

/-- Generator.js `Property.referenceComponentName`: the trailing segment of
the `$ref` pointer, or absent when the `$ref` is falsy (absent or ""). -/
def Property.referenceComponentName (p : Property) : Option String :=
  match p.ref with
  | some r => if r == "" then none else some (jsLastSeg r)
  | none => none

/-- Generator.js `Property.isArray`. -/
def Property.isArray (p : Property) : Bool :=
  p.type == some "array"

/-- Generator.js `Property.isDictionary`. -/
def Property.isDictionary (p : Property) : Bool :=
  p.type == some "object" && p.additionalProperties.isSome

/-- Generator.js `Property.isDate`. -/
def Property.isDate (p : Property) : Bool :=
  p.type == some "string" && p.format == some "date-time"

/-- Generator.js `Property.isNumberType`. -/
def Property.isNumberType (p : Property) : Bool :=
  p.type == some "number" || p.type == some "integer"

/-- Generator.js `Property.formattedDtoType` (the wire-shape type).  The
result is `none` exactly when the JS getter returns `undefined` (the final
`return this.type` with an absent type); interpolation sites turn that into
"undefined" or "any" as the source does.  Where the source would throw a
`TypeError` (an array with a `$ref` but no `items` node), the model yields
the "undefined" interpolation instead; no claim exercises that input. -/
def Property.formattedDtoType : Property → Option String
  | .mk name ty nl fmt rf refEnum items addProps =>
    let p : Property := .mk name ty nl fmt rf refEnum items addProps
    if p.isArray && refEnum then
      some (((items.bind Property.referenceComponentName).getD "???") ++ "[]")
    else if refEnum then
      some (jsInterp p.referenceComponentName)
    else if jsTruthyStr p.referenceComponentName then
      if p.isArray then
        some ("T" ++ jsInterp (items.bind Property.referenceComponentName) ++ "Dto[]")
      else
        some ("T" ++ jsInterp p.referenceComponentName ++ "Dto")
    else if p.isNumberType then
      some "number"
    else if p.isArray then
      match items with
      | some arrayProperty =>
        if jsTruthyStr arrayProperty.referenceComponentName then
          some ("T" ++ jsInterp arrayProperty.referenceComponentName ++ "Dto[]")
        else
          some (jsInterp arrayProperty.formattedDtoType ++ "[]")
      | none => some (jsInterp none ++ "[]")
    else if p.isDictionary then
      some ("Record<string, " ++
        (match addProps with
         | some ap => (Property.formattedDtoType ap).getD "any"
         | none => "any") ++ ">")
    else
      ty

/-- Generator.js `Property.formattedType` (the domain-shape type); same
`Option` conventions as `formattedDtoType`. -/
def Property.formattedType : Property → Option String
  | .mk name ty nl fmt rf refEnum items addProps =>
    let p : Property := .mk name ty nl fmt rf refEnum items addProps
    if p.isDate then
      some "Date"
    else if p.isNumberType then
      some "number"
    else if p.isArray && refEnum then
      some (((items.bind Property.referenceComponentName).getD "???") ++ "[]")
    else if refEnum then
      some (jsInterp p.referenceComponentName)
    else if jsTruthyStr p.referenceComponentName then
      if p.isArray then
        some (jsInterp (items.bind Property.referenceComponentName) ++ "[]")
      else
        some (jsInterp p.referenceComponentName)
    else if p.isArray then
      match items with
      | some arrayProperty =>
        if jsTruthyStr arrayProperty.referenceComponentName then
          some (jsInterp arrayProperty.referenceComponentName ++ "[]")
        else
          some (jsInterp arrayProperty.formattedType ++ "[]")
      | none => some (jsInterp none ++ "[]")
    else if p.isDictionary then
      some ("Map<string, " ++
        (match addProps with
         | some ap => (Property.formattedType ap).getD "any"
         | none => "any") ++ ">")
    else
      ty

/-- Generator.js `Property.render`. -/
def Property.render (p : Property) (isRequest : Bool) : String :=
  let pfx := if isRequest && jsTruthyStr p.referenceComponentName then "T" else ""
  p.name ++ (if p.nullable then "?" else "") ++ ": " ++ pfx ++
    jsInterp p.formattedType ++ ";"

/-- Generator.js `Property.renderAsDto`. -/
def Property.renderAsDto (p : Property) : String :=
  p.name ++ (if p.nullable then "?" else "") ++ ": " ++
    jsInterp p.formattedDtoType ++ ";"

/-! ## Components (Generator.js lines 541-694) -/

/-- The dictionary arm of the converting-constructor line
(`Component.render`, Generator.js lines 635-652).  `ap` is the
`additionalProperties` descriptor, guaranteed present by `isDictionary`. -/
def dictionaryCtorLine (n : String) (ap : Property) : String :=
  if ap.isArray then
    if jsTruthyStr ap.referenceComponentName && !ap.referenceIsEnum then
      "\n\t\tthis." ++ n ++ " = new Map(Object.entries(dto." ++ n ++
        ").map(([key, value]) => [key, value.map((item) => new " ++
        jsInterp ((ap.items.bind Property.formattedType).map
          (fun s => jsReplaceFirst s "[]" "")) ++ "(item))]));"
    else
      "\n\t\tthis." ++ n ++ " = new Map(Object.entries(dto." ++ n ++
        ").map(([key, value]) => [key, value.map((item) => item)]));"
  else if jsTruthyStr (ap.formattedType) then
    "\n\t\tthis." ++ n ++ " = new Map(Object.entries(dto." ++ n ++
      ").map(([key, value]) => [key, new " ++ jsInterp ap.formattedType ++
      "(value)]));"
  else
    "\n\t\tthis." ++ n ++ " = new Map(Object.entries(dto." ++ n ++
      ").map(([key, value]) => [key, value]));"

/-- One iteration of the converting-constructor loop of `Component.render`
(Generator.js lines 605-654). -/
def Property.renderCtorLine (p : Property) : String :=
  let n := p.name
  if p.isDate then
    if p.nullable then
      "\n\t\tthis." ++ n ++ " = dto." ++ n ++ " ? new Date(dto." ++ n ++
        ") : undefined;"
    else
      "\n\t\tthis." ++ n ++ " = new Date(dto." ++ n ++ ");"
  else if jsTruthyStr p.referenceComponentName && !p.referenceIsEnum then
    if p.nullable then
      "\n\t\tthis." ++ n ++ " = dto." ++ n ++ " ? new " ++
        jsInterp p.referenceComponentName ++ "(dto." ++ n ++ ") : undefined;"
    else
      "\n\t\tthis." ++ n ++ " = new " ++ jsInterp p.referenceComponentName ++
        "(dto." ++ n ++ ");"
  else if p.isArray && !p.referenceIsEnum &&
      (match p.items with
       | some it => jsTruthyStr it.referenceComponentName && !it.referenceIsEnum
       | none => false) then
    if p.nullable then
      "\n\t\tthis." ++ n ++ " = dto." ++ n ++ "?.map((item) => new " ++
        jsInterp (p.items.bind Property.referenceComponentName) ++ "(item));"
    else
      "\n\t\tthis." ++ n ++ " = dto." ++ n ++ ".map((item) => new " ++
        jsInterp (p.items.bind Property.referenceComponentName) ++ "(item));"
  else if p.isDictionary then
    match p.additionalProperties with
    | some ap => dictionaryCtorLine n ap
    | none => "\n\t\tthis." ++ n ++ " = dto." ++ n ++ ";"
  else
    "\n\t\tthis." ++ n ++ " = dto." ++ n ++ ";"

/-- Generator.js `Component`: the shared shape of request, response and
model components. -/
structure Component where
  name : String
  requiredProperties : List String
  properties : List Property
  componentType : EComponentType

def Component.capitalizedName (c : Component) : String :=
  jsCapitalize c.name

/-- Generator.js `Component.dtoName` (used by response and model
components). -/
def Component.dtoName (c : Component) : String :=
  "T" ++ c.capitalizedName ++ "Dto"

/-- Generator.js `RequestComponent.dtoName` override: no `Dto` suffix. -/
def RequestComponent.dtoName (c : Component) : String :=
  "T" ++ c.capitalizedName

/-- The wire-shape property lines of `Component.renderDto`. -/
def Component.dtoFieldsStr (c : Component) : String :=
  String.join (c.properties.map (fun p => "\t" ++ p.renderAsDto ++ "\n"))

/-- Generator.js `Component.renderDto`. -/
def Component.renderDto (c : Component) : String :=
  "export type " ++ c.dtoName ++ " = \x7b \n" ++ c.dtoFieldsStr ++ "\x7d;\n"

/-- The public field lines of the value class in `Component.render`. -/
def Component.classFieldsStr (c : Component) : String :=
  String.join (c.properties.map (fun p => "\tpublic " ++ p.render false ++ "\n"))

/-- The converting-constructor body of `Component.render`. -/
def Component.ctorBodyStr (c : Component) : String :=
  String.join (c.properties.map Property.renderCtorLine)

/-- Generator.js `Component.render`: the flat DTO type alias followed by the
value class with its converting constructor. -/
def Component.render (c : Component) : String :=
  c.renderDto ++ "\n" ++ "export class " ++ c.capitalizedName ++ " \x7b\n" ++
    c.classFieldsStr ++ "\n\tpublic constructor(dto: " ++ c.dtoName ++
    ") \x7b" ++ c.ctorBodyStr ++ "\n\t\x7d\n\x7d"

/-- The property lines of `RequestComponent.render`. -/
def RequestComponent.fieldsStr (c : Component) : String :=
  String.join (c.properties.map (fun p => "\t" ++ p.render true ++ "\n"))

/-- Generator.js `RequestComponent.render` override: only a flat type alias
named `T{name}`, no value class. -/
def RequestComponent.render (c : Component) : String :=
  "export type T" ++ c.name ++ " = \x7b \n" ++ RequestComponent.fieldsStr c ++
    "\x7d;"

/-- Generator.js `EnumComponent`.  Enum values are modelled by the string
they interpolate as in a JS template literal. -/
structure EnumComponent where
  name : String
  values : List String
  enumNames : Option (List String)
  type : String

def EnumComponent.capitalizedName (e : EnumComponent) : String :=
  jsCapitalize e.name

/-- Generator.js `EnumComponent.getEnumName`:
`this.enumNames?.[index] ?? this.values[index]`, with an out-of-range
`values` access interpolating as "undefined". -/
def EnumComponent.getEnumName (e : EnumComponent) (index : Nat) : String :=
  ((e.enumNames.bind (fun ns => ns.get? index)).getD
    ((e.values.get? index).getD "undefined"))

/-- Generator.js `EnumComponent.formatValue`: numeric enum types keep the
raw value, every other type quotes it. -/
def EnumComponent.formatValue (e : EnumComponent) (value : String) : String :=
  if e.type == "integer" || e.type == "number" || e.type == "int32" ||
      e.type == "int64" then
    value
  else
    "\"" ++ value ++ "\""

/-- Generator.js `EnumComponent.render`. -/
def EnumComponent.render (e : EnumComponent) : String :=
  "export enum " ++ e.capitalizedName ++ " \x7b\n" ++
    String.intercalate ",\n"
      (e.values.enum.map (fun iv =>
        "\t" ++ e.getEnumName iv.1 ++ " = " ++ e.formatValue iv.2)) ++
    "\n\x7d"

/-! ## The raw OpenAPI document, as the fields the generator reads -/

/-- A raw schema-property node.  `oneOf`, when present, is modelled by the
list of its members' `$ref` strings (the only field the generator reads of
a union member is `oneOf[0]["$ref"]`). -/
inductive RawProp where
  | mk (type : Option String) (nullable : Bool) (format : Option String)
       (ref : Option String) (items : Option RawProp)
       (additionalProperties : Option RawProp)
       (oneOf : Option (List (Option String)))

def RawProp.type : RawProp → Option String
  | .mk t _ _ _ _ _ _ => t

def RawProp.nullable : RawProp → Bool
  | .mk _ nl _ _ _ _ _ => nl

def RawProp.format : RawProp → Option String
  | .mk _ _ f _ _ _ _ => f

def RawProp.ref : RawProp → Option String
  | .mk _ _ _ r _ _ _ => r

def RawProp.items : RawProp → Option RawProp
  | .mk _ _ _ _ it _ _ => it

def RawProp.additionalProperties : RawProp → Option RawProp
  | .mk _ _ _ _ _ ap _ => ap

def RawProp.oneOf : RawProp → Option (List (Option String))
  | .mk _ _ _ _ _ _ oo => oo

/-- A raw top-level component schema (`components.schemas` entry).  A
schema node without a `properties` object is modelled with an empty list
(the source would throw on `Object.entries(undefined)`). -/
structure RawSchema where
  enum : Option (List String)
  xEnumNames : Option (List String)
  type : Option String
  required : Option (List String)
  properties : List (String × RawProp)

/-- A raw media-type schema node as read from `content[ct].schema`. -/
structure MediaSchema where
  ref : Option String
  properties : List (String × RawProp)
  required : Option (List String)

/-- One `content` entry value (`{ schema?: ... }`). -/
structure MediaObj where
  schema : Option MediaSchema

/-- A raw query/path parameter schema. `itemsType` is `items?.type`. -/
structure ParamSchema where
  type : Option String
  format : Option String
  itemsType : Option (Option String)

/-- A raw operation parameter. -/
structure Param where
  name : String
  paramIn : String
  required : Bool
  schema : ParamSchema

/-- A raw `requestBody` node (`content` is required by the source's
unguarded `Object.entries(requestBody["content"])`). -/
structure RequestBody where
  content : List (String × MediaObj)

/-- A raw response node. -/
structure ResponseDef where
  content : Option (List (String × MediaObj))

/-- A raw operation node. -/
structure Operation where
  operationId : Option String
  parameters : Option (List Param)
  requestBody : Option RequestBody
  responses : List (String × ResponseDef)

/-- The raw OpenAPI document: `paths` (endpoint → method → operation) and
`components.schemas` (absent modelled as the empty list, matching
`Object.entries(components ?? \x7b\x7d)`). -/
structure OpenApiDoc where
  paths : List (String × List (String × Operation))
  componentsSchemas : List (String × RawSchema)

/-- The generator configuration values read while emitting one client. -/
structure Config where
  openApiJsonDocumentUrl : String
  clientName : String
  clientBaseUrlValue : String
  streamedEndpoints : List String

/-! ## Insertion-ordered string-keyed maps (JS `Map`) -/

/-- JS `Map.prototype.get`. -/
def mapGet {α : Type} : List (String × α) → String → Option α
  | [], _ => none
  | p :: rest, k => if p.1 == k then some p.2 else mapGet rest k

/-- JS `Map.prototype.set`: replace in place when the key exists (a `Map`
never holds a key twice), append otherwise — iteration order is insertion
order. -/
def mapSet {α : Type} : List (String × α) → String → α → List (String × α)
  | [], k, v => [(k, v)]
  | p :: rest, k, v =>
    if p.1 == k then (k, v) :: rest else p :: mapSet rest k v

/-! ## Schema classification (Generator.js lines 47-230) -/

/-- Conversion performed by the `Property` constructor on a raw nested node
(`new Property(dto.items)` / `new Property(dto.additionalProperties)`):
fields are copied, `name` and `referenceIsEnum` are absent on raw nodes,
and nesting recurses. -/
def Property.ofRaw : RawProp → Property
  | .mk t nl f r it ap _ =>
    .mk "" t nl f r false
      (match it with
       | some i => some (Property.ofRaw i)
       | none => none)
      (match ap with
       | some a => some (Property.ofRaw a)
       | none => none)

/-- The pass-1 enum-name scan (Generator.js lines 118-123): every top-level
schema carrying an `enum` keyword. -/
def collectEnumNames (components : List (String × RawSchema)) : List String :=
  (components.filter (fun p => p.2.enum.isSome)).map (fun p => p.1)

/-- The `referenceIsEnum` computation shared by the three classification
branches: the property's own `$ref` target, or its `items`' `$ref` target,
is a known enum name. -/
def computeRefIsEnum (enumNames : List String) (r : RawProp) : Bool :=
  (match r.ref with
   | some s => enumNames.contains (jsLastSeg s)
   | none => false) ||
  (match r.items with
   | some it =>
     match it.ref with
     | some s => enumNames.contains (jsLastSeg s)
     | none => false
   | none => false)

/-- The nullability computation shared by the three classification
branches: `property["nullable"] || !!property["$ref"] || false`, then
forced to `false` when the owning schema's `required` list names the
property. -/
def resolveNullable (required : Option (List String)) (propertyName : String)
    (r : RawProp) : Bool :=
  let base := r.nullable || jsTruthyStr r.ref
  match required with
  | some req => if req.contains propertyName then false else base
  | none => base

/-- The `oneOf` type fallback of the response and model branches: when
`type` is falsy and a `oneOf` is present, use the first member's `$ref`
tail (or "unknown").  An empty `oneOf` array would throw in the source and
is modelled as "unknown". -/
def oneOfFallbackType (r : RawProp) : Option String :=
  if jsTruthyStr r.type then r.type
  else
    match r.oneOf with
    | some members =>
      some (match members.head? with
        | some (some refStr) =>
          if jsLastSeg refStr == "" then "unknown" else jsLastSeg refStr
        | some none => "unknown"
        | none => "unknown")
    | none => r.type

/-- Property construction of the request branch (Generator.js lines
142-161): no `oneOf` fallback. -/
def mkRequestProperty (enumNames : List String)
    (required : Option (List String)) (propertyName : String) (r : RawProp) :
    Property :=
  .mk propertyName r.type (resolveNullable required propertyName r) r.format
    r.ref (computeRefIsEnum enumNames r)
    ((r.items).map Property.ofRaw)
    ((r.additionalProperties).map Property.ofRaw)

/-- Property construction of the model branch (Generator.js lines 204-228):
like the request branch plus the `oneOf` type fallback. -/
def mkModelProperty (enumNames : List String)
    (required : Option (List String)) (propertyName : String) (r : RawProp) :
    Property :=
  .mk propertyName (oneOfFallbackType r)
    (resolveNullable required propertyName r) r.format
    r.ref (computeRefIsEnum enumNames r)
    ((r.items).map Property.ofRaw)
    ((r.additionalProperties).map Property.ofRaw)

/-- Property construction of the response branch (Generator.js lines
170-194); textually identical to the model branch. -/
def mkResponseProperty (enumNames : List String)
    (required : Option (List String)) (propertyName : String) (r : RawProp) :
    Property :=
  mkModelProperty enumNames required propertyName r

/-- Property construction of the synthesized multipart form-data request
branch (Generator.js lines 91-97): only `name`, `type`, `nullable` and
`format` are carried over. -/
def mkFormProperty (propertyName : String) (r : RawProp) : Property :=
  .mk propertyName r.type r.nullable r.format none false none none

def mkEnumComponent (name : String) (s : RawSchema) : EnumComponent :=
  ⟨name, s.enum.getD [], s.xEnumNames, jsOrStr s.type "string"⟩

def mkRequestComponent (enumNames : List String) (name : String)
    (s : RawSchema) : Component :=
  ⟨name, s.required.getD [],
    s.properties.map (fun pr => mkRequestProperty enumNames s.required pr.1 pr.2),
    EComponentType.Request⟩

def mkResponseComponent (enumNames : List String) (name : String)
    (s : RawSchema) : Component :=
  ⟨name, s.required.getD [],
    s.properties.map (fun pr => mkResponseProperty enumNames s.required pr.1 pr.2),
    EComponentType.Response⟩

def mkModelComponent (enumNames : List String) (name : String)
    (s : RawSchema) : Component :=
  ⟨name, s.required.getD [],
    s.properties.map (fun pr => mkModelProperty enumNames s.required pr.1 pr.2),
    EComponentType.Model⟩

/-- The synthesized form-data component name:
`{CapitalizedOperationId}RequestFormData` (the source throws when
`operationId` is absent; modelled by the empty id). -/
def synthFormName (operationId : Option String) : String :=
  jsCapitalize (operationId.getD "") ++ "RequestFormData"

def mkFormComponent (name : String) (ms : MediaSchema) : Component :=
  ⟨name, ms.required.getD [],
    ms.properties.map (fun pr => mkFormProperty pr.1 pr.2),
    EComponentType.Request⟩

/-- The pass-1 usage-discovery state. -/
structure Pass1 where
  requestNames : List String
  responseNames : List String
  requestComponents : List (String × Component)

/-- The response-schema names referenced by one operation (Generator.js
lines 51-69). -/
def respRefNames (op : Operation) : List String :=
  op.responses.flatMap (fun rc =>
    match rc.2.content with
    | none => []
    | some cs =>
      cs.flatMap (fun ct =>
        match ct.2.schema with
        | none => []
        | some sch =>
          match sch.ref with
          | some r => if r == "" then [] else [jsLastSeg r]
          | none => []))

/-- The request-body part of pass 1 for one operation (Generator.js lines
70-107): record `$ref` names, synthesize a request component for a
multipart form-data body without a `$ref`. -/
def pass1RequestStep (op : Operation) (st : Pass1) : Pass1 :=
  match op.requestBody with
  | none => st
  | some rb =>
    rb.content.foldl (fun st2 ctc =>
      match ctc.2.schema with
      | none => st2
      | some sch =>
        let refStr := sch.ref.getD ""
        if refStr == "" then
          if ctc.1 == "multipart/form-data" then
            let formSchemaName := synthFormName op.operationId
            { st2 with
              requestComponents :=
                (mapSet st2.requestComponents formSchemaName
                  (mkFormComponent formSchemaName sch)) }
          else st2
        else
          { st2 with requestNames := st2.requestNames ++ [jsLastSeg refStr] }) st

/-- All operations of the document in traversal order. -/
def allOperations (doc : OpenApiDoc) : List Operation :=
  doc.paths.flatMap (fun ep => ep.2.map (fun mo => mo.2))

/-- Pass 1 over the whole document. -/
def pass1Doc (doc : OpenApiDoc) : Pass1 :=
  (allOperations doc).foldl
    (fun st op =>
      pass1RequestStep op { st with responseNames := st.responseNames ++ respRefNames op })
    ⟨[], [], []⟩

/-- The per-run classification collections. -/
structure Ctx where
  enumComponents : List (String × EnumComponent)
  requestComponents : List (String × Component)
  responseComponents : List (String × Component)
  modelComponents : List (String × Component)

/-- One pass-2 classification step (Generator.js lines 124-230): enum
keyword first, then request usage, then response usage, else model. -/
def classifyStep (enumNames requestNames responseNames : List String)
    (ctx : Ctx) (entry : String × RawSchema) : Ctx :=
  let name := entry.1
  let s := entry.2
  if s.enum.isSome then
    { ctx with enumComponents := mapSet ctx.enumComponents name (mkEnumComponent name s) }
  else if requestNames.contains name then
    { ctx with requestComponents :=
        (mapSet ctx.requestComponents name (mkRequestComponent enumNames name s)) }
  else if responseNames.contains name then
    { ctx with responseComponents :=
        (mapSet ctx.responseComponents name (mkResponseComponent enumNames name s)) }
  else
    { ctx with modelComponents :=
        (mapSet ctx.modelComponents name (mkModelComponent enumNames name s)) }

/-- Full classification of a document: pass 1 (usage discovery and form
synthesis), the enum-name scan, then pass 2 over every top-level schema in
document order. -/
def classify (doc : OpenApiDoc) : Ctx :=
  let p1 := pass1Doc doc
  let enumNames := collectEnumNames doc.componentsSchemas
  doc.componentsSchemas.foldl
    (classifyStep enumNames p1.requestNames p1.responseNames)
    ⟨[], p1.requestComponents, [], []⟩

/-! ## The operation mapper (`ApiPath`, Generator.js lines 302-539) -/

/-- Generator.js `ApiPath` after its constructor ran (`endpoint` already
stripped of one leading "/", `parameters` defaulted to `[]`). -/
structure ApiPath where
  endpoint : String
  method : String
  operationId : Option String
  requestComponentName : Option String
  responseComponentName : Option String
  isStreamed : Bool
  parameters : List Param

/-- The `ApiPath` constructor (Generator.js lines 319-330). -/
def mkApiPath (endpoint method : String) (operationId : Option String)
    (requestComponentName responseComponentName : Option String)
    (isStreamed : Bool) (parameters : Option (List Param)) : ApiPath :=
  ⟨if jsStartsWith endpoint "/" then jsDropFirst endpoint else endpoint,
    method, operationId, requestComponentName, responseComponentName,
    isStreamed, parameters.getD []⟩

def ApiPath.queryParams (p : ApiPath) : List Param :=
  p.parameters.filter (fun param => param.paramIn == "query")

def ApiPath.hasQueryParams (p : ApiPath) : Bool :=
  decide (0 < p.queryParams.length)

def ApiPath.pathParams (p : ApiPath) : List String :=
  jsMatchPathParams p.endpoint

def ApiPath.hasPathParams (p : ApiPath) : Bool :=
  decide (0 < p.pathParams.length)

/-- Generator.js `ApiPath.requestComponent`: lookup of the linked request
component (absent name looks up nothing, like `Map.get(undefined)`). -/
def ApiPath.requestComponent (ctx : Ctx) (p : ApiPath) : Option Component :=
  p.requestComponentName.bind (mapGet ctx.requestComponents)

def ApiPath.responseComponent (ctx : Ctx) (p : ApiPath) : Option Component :=
  p.responseComponentName.bind (mapGet ctx.responseComponents)

/-- Generator.js `ApiPath.clientMethodName`.  The `default:` arm of the
method switch throws in the source and is modelled by the empty string;
no claim exercises it. -/
def ApiPath.clientMethodName (ctx : Ctx) (p : ApiPath) : String :=
  let suffix := if p.isStreamed then "Stream" else ""
  let pfx := if p.isStreamed then "*" else ""
  if jsTruthyStr p.operationId then
    pfx ++ jsLowerFirst (stripUrlChars (p.operationId.getD "")) ++ suffix
  else
    let resourceName := stripUrlChars p.endpoint
    match p.method with
    | "get" =>
      match ApiPath.responseComponent ctx p with
      | some rc => pfx ++ jsReplaceFirst (jsLowerFirst rc.name) "Response" "" ++ suffix
      | none => pfx ++ "get" ++ resourceName ++ suffix
    | "post" =>
      match ApiPath.requestComponent ctx p with
      | some rc => pfx ++ jsReplaceFirst (jsLowerFirst rc.name) "Request" "" ++ suffix
      | none => pfx ++ "create" ++ resourceName ++ suffix
    | "put" =>
      match ApiPath.requestComponent ctx p with
      | some rc => pfx ++ jsReplaceFirst (jsLowerFirst rc.name) "Request" "" ++ suffix
      | none => pfx ++ "replace" ++ resourceName ++ suffix
    | "delete" =>
      match ApiPath.requestComponent ctx p with
      | some rc => pfx ++ jsReplaceFirst (jsLowerFirst rc.name) "Request" "" ++ suffix
      | none => pfx ++ "delete" ++ resourceName ++ suffix
    | "patch" =>
      match ApiPath.requestComponent ctx p with
      | some rc => pfx ++ jsReplaceFirst (jsLowerFirst rc.name) "Request" "" ++ suffix
      | none => pfx ++ "update" ++ resourceName ++ suffix
    | _ => ""

/-- Generator.js `ApiPath.builtEndpointUrl`: each `{param}` placeholder is
replaced by a `$\x7brequest.param\x7d` interpolation. -/
def ApiPath.builtEndpointUrl (p : ApiPath) : String :=
  p.pathParams.foldl
    (fun ep param =>
      jsReplaceFirst ep ("\x7b" ++ param ++ "\x7d")
        ("$\x7brequest." ++ param ++ "\x7d"))
    p.endpoint

/-- Generator.js `ApiPath.shouldSkipRequest`: every property of the linked
request component is already covered by a path parameter. -/
def ApiPath.shouldSkipRequest (ctx : Ctx) (p : ApiPath) : Bool :=
  let hasRequest := (ApiPath.requestComponent ctx p).isSome || p.hasPathParams
  hasRequest && (ApiPath.requestComponent ctx p).isSome &&
    (match ApiPath.requestComponent ctx p with
     | some rc => rc.properties.all (fun pr => p.pathParams.contains pr.name)
     | none => false)

/-- Generator.js `ApiPath.requestStr`. -/
def ApiPath.requestStr (ctx : Ctx) (p : ApiPath) : String :=
  if p.method == "get" then ""
  else if (ApiPath.requestComponent ctx p).isNone then ""
  else if ApiPath.shouldSkipRequest ctx p then ", \x7b\x7d" else ", request"

/-- The `.replaceAll(/^\s*$/gm, "")` post-processing of the rendered
templates: each whitespace-only line is emptied (the newlines stay). -/
def emptyWhitespaceLines (s : String) : String :=
  String.intercalate "\n"
    ((strSplitBy (fun c => c == '\n') s).map (fun line =>
      if line.data.all (fun c => c.isWhitespace) then "" else line))

/-- The `queryParams.set` lines shared by three templates. -/
def ApiPath.queryParamSetLines (p : ApiPath) : String :=
  String.intercalate "\n\t\t"
    (p.queryParams.map (fun param =>
      "queryParams.set(\"" ++ param.name ++ "\", request." ++ param.name ++
        "?.toString() ?? \"\");"))

/-- The `const queryParams = ...` line, present only with query params. -/
def ApiPath.queryParamsDecl (p : ApiPath) : String :=
  if p.hasQueryParams then "const queryParams = new URLSearchParams();" else ""

/-- The `?$\x7bqueryParams\x7d` URL suffix, present only with query params. -/
def ApiPath.queryParamsUrlSuffix (p : ApiPath) : String :=
  if p.hasQueryParams then "?$\x7bqueryParams\x7d" else ""

/-- Generator.js `ApiPath.renderRequestAndStreamedResponse`. -/
def ApiPath.renderRequestAndStreamedResponse (ctx : Ctx) (p : ApiPath)
    (requestDtoName responseDtoName finalResponse clientFunctionName : String) :
    String :=
  "public async " ++ ApiPath.clientMethodName ctx p ++ "(request: " ++
    requestDtoName ++ ", options?: TApiRequestOptions): AsyncGenerator<" ++
    finalResponse ++ "> \x7b\n\t\tfor await (const chunkDto of this." ++
    clientFunctionName ++ "Iterable<" ++ responseDtoName ++ ">(`" ++
    ApiPath.builtEndpointUrl p ++ "`" ++ ApiPath.requestStr ctx p ++
    ", options)) \x7b\n\t\t\tif (chunkDto) \x7b\n\t\t\t\tyield new " ++
    finalResponse ++ "(chunkDto);\n\t\t\t\x7d\n\t\t\x7d\n\t\x7d"

/-- Generator.js `ApiPath.renderRequestAndResponse`. -/
def ApiPath.renderRequestAndResponse (ctx : Ctx) (p : ApiPath)
    (requestDtoName responseDtoName finalResponse clientFunctionName : String) :
    String :=
  emptyWhitespaceLines
    ("public async " ++ ApiPath.clientMethodName ctx p ++ "(request: " ++
      requestDtoName ++ ", options?: TApiRequestOptions): Promise<TApiClientResult<" ++
      finalResponse ++ ">> \x7b\n\t\t" ++ ApiPath.queryParamsDecl p ++
      "\n\t\t" ++ ApiPath.queryParamSetLines p ++
      "\n\t\tconst \x7b response, data \x7d = await this." ++
      clientFunctionName ++ "<" ++ responseDtoName ++ ">(`" ++
      ApiPath.builtEndpointUrl p ++ ApiPath.queryParamsUrlSuffix p ++ "`" ++
      ApiPath.requestStr ctx p ++
      ", options);\n\t\tif (!response.ok || !data) \x7b\n\t\t\treturn [null, response];\n\t\t\x7d\n\n\t\treturn [new " ++
      finalResponse ++ "(data), response];\n\t\x7d")

/-- Generator.js `ApiPath.renderRequestOnly`. -/
def ApiPath.renderRequestOnly (ctx : Ctx) (p : ApiPath)
    (requestDtoName clientFunctionName : String) : String :=
  emptyWhitespaceLines
    ("public async " ++ ApiPath.clientMethodName ctx p ++ "(request: " ++
      requestDtoName ++ ", options?: TApiRequestOptions): Promise<TApiClientResult<null>> \x7b\n\t\t" ++
      ApiPath.queryParamsDecl p ++ "\n\t\t" ++ ApiPath.queryParamSetLines p ++
      "\n\t\tconst \x7b response \x7d = await this." ++ clientFunctionName ++
      "(`" ++ ApiPath.builtEndpointUrl p ++ ApiPath.queryParamsUrlSuffix p ++
      "`" ++ ApiPath.requestStr ctx p ++
      ", options);\n\n\t\treturn [null, response];\n\t\x7d")

/-- Generator.js `ApiPath.renderResponseOnly` (note the trailing space after
the success return in the source template). -/
def ApiPath.renderResponseOnly (ctx : Ctx) (p : ApiPath)
    (responseDtoName clientFunctionName finalResponse : String) : String :=
  emptyWhitespaceLines
    ("public async " ++ ApiPath.clientMethodName ctx p ++
      "(options?: TApiRequestOptions): Promise<TApiClientResult<" ++
      finalResponse ++ ">> \x7b\n\t\t" ++ ApiPath.queryParamsDecl p ++
      "\n\t\t" ++ ApiPath.queryParamSetLines p ++
      "\n\t\tconst \x7b response, data \x7d = await this." ++
      clientFunctionName ++ "<" ++ responseDtoName ++ ">(`" ++
      ApiPath.builtEndpointUrl p ++ ApiPath.queryParamsUrlSuffix p ++
      "`, options);\n\n\t\tif (!response.ok || !data) \x7b\n\t\t\treturn [null, response];\n\t\t\x7d\n\n\t\treturn [new " ++
      finalResponse ++ "(data), response]; \n\t\x7d")

/-- Generator.js `ApiPath.renderNoRequestNoResponse` (no empty-line
post-processing in the source). -/
def ApiPath.renderNoRequestNoResponse (ctx : Ctx) (p : ApiPath)
    (clientFunctionName : String) : String :=
  "public async " ++ ApiPath.clientMethodName ctx p ++
    "(options?: TApiRequestOptions): Promise<TApiClientResult<null>> \x7b\n\t\tconst \x7b response \x7d = await this." ++
    clientFunctionName ++ "(`" ++ ApiPath.builtEndpointUrl p ++
    "`, options);\n\n\t\treturn [null, response];\n\t\x7d"

/-- One field of the merged query-parameter request type
(Generator.js lines 502-517). -/
def queryParamField (param : Param) : String :=
  let paramType :=
    if param.schema.format == some "date-time" then some "string"
    else if param.schema.type == some "array" then
      some (jsInterp (param.schema.itemsType.bind id) ++ "[]")
    else if param.schema.type == some "integer" then some "number"
    else param.schema.type
  if !param.required then param.name ++ "?: " ++ jsInterp paramType
  else param.name ++ ": " ++ jsInterp paramType

/-- The path-parameter part of the merged request type. -/
def ApiPath.pathParamType (p : ApiPath) : String :=
  "\x7b " ++
    String.intercalate ", " (p.pathParams.map (fun param => param ++ ": string")) ++
    " \x7d"

/-- The query-parameter part of the merged request type. -/
def ApiPath.queryParamsType (p : ApiPath) : String :=
  "\x7b " ++ String.intercalate ", " (p.queryParams.map queryParamField) ++
    " \x7d"

/-- The request argument type of a rendered method (Generator.js lines
487-525): the linked request component's dto name (or "any"), intersected
with the path-parameter type and the query-parameter type. -/
def ApiPath.effectiveRequestDtoName (ctx : Ctx) (p : ApiPath) : String :=
  let requestDtoName0 :=
    match ApiPath.requestComponent ctx p with
    | some rc => RequestComponent.dtoName rc
    | none => "any"
  let requestDtoName1 :=
    if p.hasPathParams then
      if requestDtoName0 == "any" then p.pathParamType
      else p.pathParamType ++ " & " ++ requestDtoName0
    else requestDtoName0
  if p.hasQueryParams then
    if requestDtoName1 == "any" then p.queryParamsType
    else p.queryParamsType ++ " & " ++ requestDtoName1
  else requestDtoName1

/-- The response dto type of a rendered method. -/
def ApiPath.respDtoName (ctx : Ctx) (p : ApiPath) : String :=
  match ApiPath.responseComponent ctx p with
  | some rc => Component.dtoName rc
  | none => "any"

/-- The response value-class name of a rendered method. -/
def ApiPath.finalResponseName (ctx : Ctx) (p : ApiPath) : String :=
  match ApiPath.responseComponent ctx p with
  | some rc => Component.capitalizedName rc
  | none => "any"

/-- Generator.js line 491: `hasRequest` of the shape decision. -/
def ApiPath.hasRequestShape (ctx : Ctx) (p : ApiPath) : Bool :=
  (ApiPath.requestComponent ctx p).isSome || p.hasPathParams || p.hasQueryParams

/-- The five method-rendering shapes of `ApiPath.render`. -/
inductive MethodShape where
  | streamedPair
  | requestAndResponse
  | requestOnly
  | responseOnly
  | noRequestNoResponse
deriving DecidableEq

/-- The branch of `ApiPath.render` an operation takes (the if-chain of
Generator.js lines 526-538). -/
def ApiPath.selectedShape (ctx : Ctx) (p : ApiPath) : MethodShape :=
  if ApiPath.hasRequestShape ctx p && (ApiPath.responseComponent ctx p).isSome then
    if p.isStreamed then MethodShape.streamedPair
    else MethodShape.requestAndResponse
  else if ApiPath.hasRequestShape ctx p then MethodShape.requestOnly
  else if (ApiPath.responseComponent ctx p).isSome then MethodShape.responseOnly
  else MethodShape.noRequestNoResponse

/-- Generator.js `ApiPath.render`. -/
def ApiPath.render (ctx : Ctx) (p : ApiPath) : String :=
  let requestDtoName := ApiPath.effectiveRequestDtoName ctx p
  let responseDtoName := ApiPath.respDtoName ctx p
  let finalResponse := ApiPath.finalResponseName ctx p
  let clientFunctionName := p.method
  if ApiPath.hasRequestShape ctx p && (ApiPath.responseComponent ctx p).isSome then
    if p.isStreamed then
      ApiPath.renderRequestAndStreamedResponse ctx p requestDtoName
        responseDtoName finalResponse clientFunctionName
    else
      ApiPath.renderRequestAndResponse ctx p requestDtoName responseDtoName
        finalResponse clientFunctionName
  else if ApiPath.hasRequestShape ctx p then
    ApiPath.renderRequestOnly ctx p requestDtoName clientFunctionName
  else if (ApiPath.responseComponent ctx p).isSome then
    ApiPath.renderResponseOnly ctx p responseDtoName clientFunctionName
      finalResponse
  else
    ApiPath.renderNoRequestNoResponse ctx p clientFunctionName

/-! ## The emission driver (Generator.js lines 233-299) -/

/-- The `ApiPath` list built for the client class (Generator.js lines
256-279): linked request name from the first `requestBody.content` entry,
linked response name from the first response's `application/json` content,
streamed flag from the configured endpoint allow-list.  A document whose
operation has no responses at all would throw in the source
(`responseInnerContents.content` on `undefined`) and yields no linked
response here. -/
def pathsOf (doc : OpenApiDoc) (streamedEndpoints : List String) :
    List ApiPath :=
  doc.paths.flatMap (fun ep =>
    ep.2.map (fun mo =>
      let op := mo.2
      let requestComponentName :=
        (((op.requestBody.bind (fun rb => rb.content.head?)).bind
          (fun c => c.2.schema)).bind (fun sch => sch.ref)).map jsLastSeg
      let responseComponentName :=
        ((((op.responses.head?.bind (fun rc => rc.2.content)).bind
          (fun cs => (cs.find? (fun c => c.1 == "application/json")))).bind
          (fun c => c.2.schema)).bind (fun sch => sch.ref)).map jsLastSeg
      mkApiPath ep.1 mo.1 op.operationId requestComponentName
        responseComponentName (streamedEndpoints.contains ep.1)
        op.parameters))

/-- The provenance-header text preceding the generation timestamp. -/
def genFilePrefix : String :=
  "// This file was generated by apx.rest\n// Do not modify this file directly\n\n"

/-- Everything emitted after the timestamp line (Generator.js lines
236-293): source-document comment, runtime import, request components,
response components, enum components, model components, then the client
class with one rendered method per operation. -/
def generateBody (doc : OpenApiDoc) (cfg : Config) : String :=
  let ctx := classify doc
  let baseUrl :=
    if jsStartsWith cfg.clientBaseUrlValue "http" then
      "\"" ++ cfg.clientBaseUrlValue ++ "\""
    else cfg.clientBaseUrlValue
  "// This file is generated from the OpenAPI document at " ++
    cfg.openApiJsonDocumentUrl ++ "\n\n// File will be overwritten!!\n\n" ++
    "import \x7b ApiClient, type TApiRequestOptions, type TApiClientResult \x7d from \"apx.rest\";\n\n" ++
    String.join (ctx.requestComponents.map
      (fun nc => RequestComponent.render nc.2 ++ "\n\n")) ++
    String.join (ctx.responseComponents.map
      (fun nc => Component.render nc.2 ++ "\n\n")) ++
    String.join (ctx.enumComponents.map
      (fun nc => EnumComponent.render nc.2 ++ "\n\n")) ++
    String.join (ctx.modelComponents.map
      (fun nc => Component.render nc.2 ++ "\n\n")) ++
    "export class " ++ cfg.clientName ++
    " extends ApiClient \x7b\n\tpublic constructor() \x7b\n\t\tsuper(" ++
    baseUrl ++ ");\n\t\x7d\n\n" ++
    String.join ((pathsOf doc cfg.streamedEndpoints).map
      (fun p => "\t" ++ ApiPath.render ctx p ++ "\n")) ++
    "\x7d"

/-- The complete output text of `Generator.generateApi` for one document,
configuration and timestamp (the string written to
`{outputBaseDirectory}/{clientName}.ts`). -/
def generateOutput (doc : OpenApiDoc) (cfg : Config) (now : String) : String :=
  genFilePrefix ++ ("// Generated on " ++ now ++ "\n\n") ++
    generateBody doc cfg

/-! ## Semantics of the generated non-streamed response-bearing method body

The templates emitted by `renderRequestAndResponse` and
`renderResponseOnly` (Generator.js lines 441-447 and 470-477) both end in

  if (!response.ok || !data) \x7b return [null, response]; \x7d
  return [new Final(data), response];

`response.ok` is true exactly for 2xx statuses and `data` is the decoded
body handed back by the runtime client (`TApiResponse.data`, optional).
The first tuple element of the result is modelled here; the second is
always the raw response. -/
def generatedMethodResult {α β : Type} (ok : Bool) (data : Option α)
    (construct : α → β) : Option β :=
  if !ok || data.isNone then none else data.map construct

/-! ## The runtime base client (`ApiClient.ts`) -/

/-- JS `s.endsWith(suffix)`. -/
def jsEndsWith (s suffix : String) : Bool :=
  suffix.data.isSuffixOf s.data

/-- The `ApiClient` constructor (ApiClient.ts lines 6-12): append a
trailing "/" when the base URL is non-empty and lacks one. -/
def apxNormalizeBaseUrl (baseUrl : String) : String :=
  if !(baseUrl == "") && !jsEndsWith baseUrl "/" then baseUrl ++ "/"
  else baseUrl

/-- `ApiClient.buildUrl` (ApiClient.ts lines 18-23) applied to the stored
base URL: strip one leading "/" from the path and concatenate. -/
def apxBuildUrl (storedBaseUrl path : String) : String :=
  storedBaseUrl ++ (if jsStartsWith path "/" then jsDropFirst path else path)

/-- `buildUrl` as observed through a client constructed from a caller
supplied base URL. -/
def apxClientBuildUrl (ctorBaseUrl path : String) : String :=
  apxBuildUrl (apxNormalizeBaseUrl ctorBaseUrl) path

/-! ## Definitions taken from the specification's words, for comparison -/

/-- Modelled from the spec (claim C3): the §4.5 decision table over
(hasRequest, hasResponse, isStreamed). -/
def specShapeTable (hasRequest hasResponse isStreamed : Bool) : MethodShape :=
  match hasRequest, hasResponse, isStreamed with
  | true, true, true => MethodShape.streamedPair
  | true, true, false => MethodShape.requestAndResponse
  | true, false, _ => MethodShape.requestOnly
  | false, true, _ => MethodShape.responseOnly
  | false, false, _ => MethodShape.noRequestNoResponse

/-- The renderer each table shape dispatches to, with the standard argument
computations of `ApiPath.render`. -/
def renderForShape (ctx : Ctx) (p : ApiPath) : MethodShape → String
  | MethodShape.streamedPair =>
    ApiPath.renderRequestAndStreamedResponse ctx p
      (ApiPath.effectiveRequestDtoName ctx p) (ApiPath.respDtoName ctx p)
      (ApiPath.finalResponseName ctx p) p.method
  | MethodShape.requestAndResponse =>
    ApiPath.renderRequestAndResponse ctx p
      (ApiPath.effectiveRequestDtoName ctx p) (ApiPath.respDtoName ctx p)
      (ApiPath.finalResponseName ctx p) p.method
  | MethodShape.requestOnly =>
    ApiPath.renderRequestOnly ctx p (ApiPath.effectiveRequestDtoName ctx p)
      p.method
  | MethodShape.responseOnly =>
    ApiPath.renderResponseOnly ctx p (ApiPath.respDtoName ctx p) p.method
      (ApiPath.finalResponseName ctx p)
  | MethodShape.noRequestNoResponse =>
    ApiPath.renderNoRequestNoResponse ctx p p.method

/-- Modelled from the spec (claim C10): "the baseUrl normalized to end
with exactly one trailing slash" concatenated with the path stripped of one
leading slash. -/
def specNormalizeExactlyOneSlash (baseUrl : String) : String :=
  String.mk ((baseUrl.data.reverse.dropWhile (fun c => c == Char.ofNat 47)).reverse) ++ "/"

/-- Modelled from the spec (claim C10): the join the claim predicts. -/
def specJoinExactlyOne (baseUrl path : String) : String :=
  specNormalizeExactlyOneSlash baseUrl ++
    (if jsStartsWith path "/" then jsDropFirst path else path)

/-- Whether a schema name is a key of exactly one of the four component
collections (claim C1). -/
def inExactlyOneCollection (ctx : Ctx) (name : String) : Bool :=
  ([(mapGet ctx.enumComponents name).isSome,
    (mapGet ctx.requestComponents name).isSome,
    (mapGet ctx.responseComponents name).isSome,
    (mapGet ctx.modelComponents name).isSome].count true) == 1

/-! ## Concrete fixtures -/

/-- An empty classification context. -/
def ctxEmpty : Ctx := ⟨[], [], [], []⟩

/-- `GET /widgets/{id}` with no operationId, no linked schemas, no
parameters, not streamed. -/
def apiPathWidgets : ApiPath :=
  mkApiPath "/widgets/\x7bid\x7d" "get" none none none false none

/-- The `PowerState` schema of the enum-rendering scenario. -/
def powerStateSchema : RawSchema :=
  ⟨some ["0", "1"], some ["Off", "On"], some "integer", none, []⟩

/-- A document whose single operation posts an inline multipart form body
(operationId "x", so the synthesized request component is named
"XRequestFormData") while `components.schemas` also contains an
enum-keyword schema of that very name. -/
def docFormCollision : OpenApiDoc :=
  ⟨[("/u", [("post",
      ⟨some "x", none,
        some ⟨[("multipart/form-data", ⟨some ⟨none, [], none⟩⟩)]⟩,
        [("200", ⟨none⟩)]⟩)])],
    [("XRequestFormData", ⟨some ["1"], none, some "integer", none, []⟩)]⟩

/-- A property node with no `type` and a one-member `oneOf` union. -/
def rawOneOfProp : RawProp :=
  RawProp.mk none false none none none none
    (some [some "#/components/schemas/Member"])

/-- A document in which the schema `Req` (used as a request body) and the
schema `Mod` (unused, hence a model) carry the same typeless `oneOf`
property. -/
def docOneOf : OpenApiDoc :=
  ⟨[("/u", [("post",
      ⟨some "makeReq", none,
        some ⟨[("application/json",
          ⟨some ⟨some "#/components/schemas/Req", [], none⟩⟩)]⟩,
        [("200", ⟨none⟩)]⟩)])],
    [("Req", ⟨none, none, some "object", none, [("p", rawOneOfProp)]⟩),
     ("Mod", ⟨none, none, some "object", none, [("p", rawOneOfProp)]⟩)]⟩

/-- A document with one enum schema `Color` that is also referenced as a
request body. -/
def docColor : OpenApiDoc :=
  ⟨[("/c", [("post",
      ⟨some "paint", none,
        some ⟨[("application/json",
          ⟨some ⟨some "#/components/schemas/Color", [], none⟩⟩)]⟩,
        [("200", ⟨none⟩)]⟩)])],
    [("Color", ⟨some ["red"], none, none, none, []⟩)]⟩

/-- A model component named `Widget` with one date property. -/
def widgetComponent : Component :=
  ⟨"Widget", ["when"],
    [Property.mk "when" (some "string") false (some "date-time") none false
      none none],
    EComponentType.Model⟩

/-- A request component named `CreateWidget` with one string property. -/
def createWidgetComponent : Component :=
  ⟨"CreateWidget", [],
    [Property.mk "label" (some "string") true none none false none none],
    EComponentType.Request⟩

/-- A response component named `ThingResponse` and an operation linked to
it with no request side. -/
def thingResponseComponent : Component :=
  ⟨"ThingResponse", [], [], EComponentType.Response⟩

def ctxThing : Ctx :=
  ⟨[], [], [("ThingResponse", thingResponseComponent)], []⟩

def apiPathThing : ApiPath :=
  mkApiPath "/thing" "get" none none (some "ThingResponse") false none

/-! ## Helper lemmas -/

theorem isPrefixOf_self_append (l r : List Char) :
    l.isPrefixOf (l ++ r) = true := by
  induction l with
  | nil => simp [List.isPrefixOf]
  | cons c cs ih => simp [List.isPrefixOf, ih]

theorem isSuffixOf_append_self (l r : List Char) :
    l.isSuffixOf (r ++ l) = true := by
  simp [List.isSuffixOf, List.reverse_append, isPrefixOf_self_append]

theorem mapGet_mapSet_self {α : Type} (m : List (String × α)) (k : String)
    (v : α) : mapGet (mapSet m k v) k = some v := by
  induction m with
  | nil => simp [mapSet, mapGet]
  | cons p rest ih =>
    by_cases h : p.1 = k
    · simp [mapSet, mapGet, h]
    · simp [mapSet, mapGet, h, ih]

theorem mapGet_mapSet_ne {α : Type} {m : List (String × α)} {k k2 : String}
    {v : α} (h : k ≠ k2) : mapGet (mapSet m k v) k2 = mapGet m k2 := by
  induction m with
  | nil => simp [mapSet, mapGet, h]
  | cons p rest ih =>
    by_cases hp : p.1 = k
    · have hp2 : ¬p.1 = k2 := by rw [hp]; exact h
      simp [mapSet, mapGet, hp, hp2, h]
    · simp [mapSet, mapGet, hp, ih]

/-- A classification step on a schema entry whose name differs from `name`
leaves all four collections unchanged at `name`. -/
theorem classifyStep_preserves (enums reqN respN : List String) (ctx : Ctx)
    (e : String × RawSchema) (name : String) (h : e.1 ≠ name) :
    mapGet (classifyStep enums reqN respN ctx e).enumComponents name =
      mapGet ctx.enumComponents name ∧
    mapGet (classifyStep enums reqN respN ctx e).requestComponents name =
      mapGet ctx.requestComponents name ∧
    mapGet (classifyStep enums reqN respN ctx e).responseComponents name =
      mapGet ctx.responseComponents name ∧
    mapGet (classifyStep enums reqN respN ctx e).modelComponents name =
      mapGet ctx.modelComponents name := by
  unfold classifyStep
  dsimp only
  split_ifs <;> simp [mapGet_mapSet_ne, h]

/-- Folding classification over entries none of which is named `name`
leaves all four collections unchanged at `name`. -/
theorem classifyFold_notmem (enums reqN respN : List String)
    (l : List (String × RawSchema)) (ctx : Ctx) (name : String)
    (h : name ∉ l.map Prod.fst) :
    mapGet ((l.foldl (classifyStep enums reqN respN) ctx)).enumComponents name =
      mapGet ctx.enumComponents name ∧
    mapGet ((l.foldl (classifyStep enums reqN respN) ctx)).requestComponents name =
      mapGet ctx.requestComponents name ∧
    mapGet ((l.foldl (classifyStep enums reqN respN) ctx)).responseComponents name =
      mapGet ctx.responseComponents name ∧
    mapGet ((l.foldl (classifyStep enums reqN respN) ctx)).modelComponents name =
      mapGet ctx.modelComponents name := by
  induction l generalizing ctx with
  | nil => exact ⟨rfl, rfl, rfl, rfl⟩
  | cons e t ih =>
    rw [List.map_cons, List.mem_cons, not_or] at h
    have he : e.1 ≠ name := fun contra => h.1 contra.symm
    have hstep := classifyStep_preserves enums reqN respN ctx e name he
    have hrest := ih (classifyStep enums reqN respN ctx e) h.2
    rw [List.foldl_cons]
    exact ⟨hrest.1.trans hstep.1, hrest.2.1.trans hstep.2.1,
      hrest.2.2.1.trans hstep.2.2.1, hrest.2.2.2.trans hstep.2.2.2⟩

/-- Folding classification over a duplicate-free entry list containing an
enum-keyword schema `(name, schema)` records `mkEnumComponent name schema`
under `name` and leaves the other three collections unchanged at `name`. -/
theorem classifyFold_enum_mem (enums reqN respN : List String)
    (l : List (String × RawSchema)) (ctx : Ctx) (name : String)
    (schema : RawSchema) (h1 : (name, schema) ∈ l)
    (h2 : schema.enum.isSome = true) (h3 : (l.map Prod.fst).Nodup) :
    mapGet ((l.foldl (classifyStep enums reqN respN) ctx)).enumComponents name =
      some (mkEnumComponent name schema) ∧
    mapGet ((l.foldl (classifyStep enums reqN respN) ctx)).requestComponents name =
      mapGet ctx.requestComponents name ∧
    mapGet ((l.foldl (classifyStep enums reqN respN) ctx)).responseComponents name =
      mapGet ctx.responseComponents name ∧
    mapGet ((l.foldl (classifyStep enums reqN respN) ctx)).modelComponents name =
      mapGet ctx.modelComponents name := by
  induction l generalizing ctx with
  | nil => cases h1
  | cons e t ih =>
    rw [List.map_cons, List.nodup_cons] at h3
    rcases List.mem_cons.mp h1 with heq | hmem
    · have hstep : classifyStep enums reqN respN ctx e =
          { ctx with enumComponents :=
              (mapSet ctx.enumComponents name (mkEnumComponent name schema)) } := by
        rw [← heq]
        unfold classifyStep
        simp [h2]
      have hnot : name ∉ t.map Prod.fst := by
        have := h3.1
        rw [← heq] at this
        exact this
      rw [List.foldl_cons, hstep]
      have hrest := classifyFold_notmem enums reqN respN t
        ({ ctx with enumComponents :=
            (mapSet ctx.enumComponents name (mkEnumComponent name schema)) })
        name hnot
      refine ⟨hrest.1.trans ?_, hrest.2.1, hrest.2.2.1, hrest.2.2.2⟩
      exact mapGet_mapSet_self ctx.enumComponents name (mkEnumComponent name schema)
    · have hin : name ∈ t.map Prod.fst :=
        List.mem_map_of_mem Prod.fst hmem
      have he : e.1 ≠ name := fun contra => h3.1 (contra ▸ hin)
      have hstep := classifyStep_preserves enums reqN respN ctx e name he
      have hrest := ih (classifyStep enums reqN respN ctx e) hmem h3.2
      rw [List.foldl_cons]
      exact ⟨hrest.1, hrest.2.1.trans hstep.2.1,
        hrest.2.2.1.trans hstep.2.2.1, hrest.2.2.2.trans hstep.2.2.2⟩

/-! ## Claim theorems -/

/-- C1 (counterexample): in `docFormCollision` the enum-keyword schema
`XRequestFormData` does classify as an `EnumComponent`, yet its name also
keys the request collection — through the multipart form-data component
synthesized in pass 1 from the operation with operationId "x" — so the
name is NOT recorded in exactly one of the four collections. -/
theorem enum_priority_counterexample :
    (mapGet (classify docFormCollision).enumComponents
      "XRequestFormData").isSome = true ∧
    (mapGet (classify docFormCollision).requestComponents
      "XRequestFormData").isSome = true ∧
    inExactlyOneCollection (classify docFormCollision) "XRequestFormData" =
      false :=
  ⟨rfl, rfl, rfl⟩

/-- C1 (amended): every schema of the components map carrying an `enum`
keyword classifies as an `EnumComponent`, even when its name appears in the
request- or response-usage sets; and the name keys exactly one of the four
collections provided the document's schema names are distinct (JSON object
keys always are) and the name does not collide with a request component
synthesized in pass 1 from a multipart form-data body
(`{CapitalizedOperationId}RequestFormData`). -/
theorem enum_priority_classification (doc : OpenApiDoc) (name : String)
    (schema : RawSchema) (h1 : (name, schema) ∈ doc.componentsSchemas)
    (h2 : schema.enum.isSome = true)
    (h3 : (doc.componentsSchemas.map Prod.fst).Nodup)
    (h4 : mapGet (pass1Doc doc).requestComponents name = none) :
    mapGet (classify doc).enumComponents name =
      some (mkEnumComponent name schema) ∧
    inExactlyOneCollection (classify doc) name = true := by
  have hcl : classify doc =
      doc.componentsSchemas.foldl
        (classifyStep (collectEnumNames doc.componentsSchemas)
          (pass1Doc doc).requestNames (pass1Doc doc).responseNames)
        ⟨[], (pass1Doc doc).requestComponents, [], []⟩ := rfl
  have hfold := classifyFold_enum_mem
    (collectEnumNames doc.componentsSchemas) (pass1Doc doc).requestNames
    (pass1Doc doc).responseNames doc.componentsSchemas
    ⟨[], (pass1Doc doc).requestComponents, [], []⟩ name schema h1 h2 h3
  rw [hcl]
  obtain ⟨he, hr, hresp, hm⟩ := hfold
  refine ⟨he, ?_⟩
  unfold inExactlyOneCollection
  rw [he, hr, hresp, hm]
  simp only at *
  rw [h4]
  simp [mapGet]

/-- C1 (witness): the amended classification statement evaluated on a
concrete document whose enum schema `Color` is also referenced as a
request body. -/
theorem enum_priority_classification_witness :
    mapGet (classify docColor).enumComponents "Color" =
      some (mkEnumComponent "Color" ⟨some ["red"], none, none, none, []⟩) ∧
    inExactlyOneCollection (classify docColor) "Color" = true :=
  enum_priority_classification docColor "Color"
    ⟨some ["red"], none, none, none, []⟩ (List.Mem.head _) rfl (by decide) rfl

/-- C6 (counterexample): `GET /widgets/\x7bid\x7d` with no declared response
schema, no operationId and no streamed flag takes the request-only branch
of `ApiPath.render`, not the no-request/no-response branch — the rendered
method even differs textually from the no-request/no-response rendering
(it declares a `request` argument). -/
theorem widgets_shape_counterexample :
    ApiPath.selectedShape ctxEmpty apiPathWidgets = MethodShape.requestOnly ∧
    MethodShape.requestOnly ≠ MethodShape.noRequestNoResponse ∧
    ApiPath.render ctxEmpty apiPathWidgets ≠
      ApiPath.renderNoRequestNoResponse ctxEmpty apiPathWidgets "get" :=
  ⟨rfl, by decide, by decide⟩

/-- C6 (amended): `GET /widgets/\x7bid\x7d` with no declared response schema,
no operationId and no streamed flag renders a method named `getWidgetsId`
of the request-only shape, whose request argument type is derived from the
path parameters alone (`\x7b id: string \x7d`), the resource name being
derived from the endpoint segments. -/
theorem widgets_method_rendering :
    ApiPath.clientMethodName ctxEmpty apiPathWidgets = "getWidgetsId" ∧
    ApiPath.selectedShape ctxEmpty apiPathWidgets = MethodShape.requestOnly ∧
    ApiPath.effectiveRequestDtoName ctxEmpty apiPathWidgets =
      "\x7b id: string \x7d" ∧
    ApiPath.render ctxEmpty apiPathWidgets =
      "public async getWidgetsId(request: \x7b id: string \x7d, options?: TApiRequestOptions): Promise<TApiClientResult<null>> \x7b\n\n\n\t\tconst \x7b response \x7d = await this.get(`widgets/$\x7brequest.id\x7d`, options);\n\n\t\treturn [null, response];\n\t\x7d" :=
  ⟨rfl, rfl, rfl, rfl⟩

/-- C7: the `PowerState` scenario renders labels `Off = 0, On = 1` with
unquoted numeric values; in general an entry's label is the parallel
friendly-name list entry when supplied and in range, else the raw value,
and values are kept raw for the numeric enum types while string-typed
enums get them quoted. -/
theorem enum_component_rendering :
    EnumComponent.render (mkEnumComponent "PowerState" powerStateSchema) =
      "export enum PowerState \x7b\n\tOff = 0,\n\tOn = 1\n\x7d" ∧
    (∀ (e : EnumComponent) (i : Nat) (ns : List String) (nm : String),
      e.enumNames = some ns → ns.get? i = some nm →
      e.getEnumName i = nm) ∧
    (∀ (e : EnumComponent) (i : Nat) (v : String),
      e.enumNames = none → e.values.get? i = some v →
      e.getEnumName i = v) ∧
    (∀ (e : EnumComponent) (v : String),
      (e.type = "integer" ∨ e.type = "number" ∨ e.type = "int32" ∨
        e.type = "int64") →
      e.formatValue v = v) ∧
    (∀ (e : EnumComponent) (v : String), e.type = "string" →
      e.formatValue v = "\"" ++ v ++ "\"") := by
  refine ⟨rfl, ?_, ?_, ?_, ?_⟩
  · intro e i ns nm h1 h2
    rw [List.get?_eq_getElem?] at h2
    simp [EnumComponent.getEnumName, h1, h2]
  · intro e i v h1 h2
    rw [List.get?_eq_getElem?] at h2
    simp [EnumComponent.getEnumName, h1, h2]
  · intro e v h
    rcases h with h | h | h | h <;> simp [EnumComponent.formatValue, h]
  · intro e v h
    simp [EnumComponent.formatValue, h]

/-- C7 (witness): the general label and quoting rules evaluated at concrete
enums. -/
theorem enum_component_rendering_witness :
    EnumComponent.getEnumName ⟨"E", ["5"], some ["Five"], "integer"⟩ 0 = "Five" ∧
    EnumComponent.getEnumName ⟨"E", ["5"], none, "integer"⟩ 0 = "5" ∧
    EnumComponent.formatValue ⟨"E", ["5"], none, "integer"⟩ "5" = "5" ∧
    EnumComponent.formatValue ⟨"S", ["a"], none, "string"⟩ "a" = "\"a\"" :=
  ⟨enum_component_rendering.2.1 ⟨"E", ["5"], some ["Five"], "integer"⟩ 0
      ["Five"] "Five" rfl rfl,
    enum_component_rendering.2.2.1 ⟨"E", ["5"], none, "integer"⟩ 0 "5" rfl rfl,
    enum_component_rendering.2.2.2.1 ⟨"E", ["5"], none, "integer"⟩ "5"
      (Or.inl rfl),
    enum_component_rendering.2.2.2.2 ⟨"S", ["a"], none, "string"⟩ "a" rfl⟩

/-- C8: the body emitted for every non-streamed response-bearing method
(`renderRequestAndResponse` / `renderResponseOnly`) yields a null first
tuple element — without throwing — whenever the response is non-2xx
(`response.ok` false) or its decoded body is absent, and yields a non-null
first element only on an ok response with a present body. -/
theorem generated_method_error_contract {α β : Type} (construct : α → β)
    (ok : Bool) (data : Option α) :
    ((ok = false ∨ data = none) →
      generatedMethodResult ok data construct = none) ∧
    (∀ b : β, generatedMethodResult ok data construct = some b →
      ok = true ∧ ∃ a : α, data = some a ∧ b = construct a) := by
  constructor
  · intro h
    cases h with
    | inl h => subst h; simp [generatedMethodResult]
    | inr h => subst h; simp [generatedMethodResult]
  · intro b hb
    cases ok with
    | false => simp [generatedMethodResult] at hb
    | true =>
      cases data with
      | none => simp [generatedMethodResult] at hb
      | some a =>
        simp [generatedMethodResult] at hb
        exact ⟨rfl, a, rfl, hb.symm⟩

/-- C8 (witness): the error contract evaluated at concrete inputs. -/
theorem generated_method_error_contract_witness :
    generatedMethodResult false (some 3) (fun n : Nat => n + 1) = none ∧
    (true = true ∧ ∃ a : Nat, (some 3 : Option Nat) = some a ∧
      4 = (fun n : Nat => n + 1) a) :=
  ⟨(generated_method_error_contract (fun n : Nat => n + 1) false (some 3)).1
      (Or.inl rfl),
    (generated_method_error_contract (fun n : Nat => n + 1) true (some 3)).2
      4 rfl⟩

/-- C9: for a fixed document and configuration the generated output is
byte-identical across runs except for the embedded generation-timestamp
line — the text before and after that line is a function of the document
and configuration only. -/
theorem generation_deterministic_modulo_timestamp (doc : OpenApiDoc)
    (cfg : Config) (t1 t2 : String) :
    ∃ pre post : String,
      generateOutput doc cfg t1 =
        pre ++ ("// Generated on " ++ t1 ++ "\n\n") ++ post ∧
      generateOutput doc cfg t2 =
        pre ++ ("// Generated on " ++ t2 ++ "\n\n") ++ post :=
  ⟨genFilePrefix, generateBody doc cfg, rfl, rfl⟩

/-- C10 (counterexample): for the caller-supplied base URL "http://h//"
(which already ends in two slashes) and the path "b", `buildUrl` returns
"http://h//b", not the "http://h/b" that normalizing to exactly one
trailing slash would give — the junction does not always hold exactly one
slash. -/
theorem buildUrl_counterexample :
    apxClientBuildUrl "http://h//" "b" = "http://h//b" ∧
    specJoinExactlyOne "http://h//" "b" = "http://h/b" ∧
    ("http://h//b" : String) ≠ "http://h/b" :=
  ⟨rfl, rfl, by decide⟩

/-- C10 (amended): for every non-empty base URL the constructor appends a
"/" exactly when one is missing (so the stored base always ends with at
least one "/", but pre-existing extra slashes are kept), and `buildUrl`
returns the stored base concatenated with the path stripped of one leading
"/". -/
theorem buildUrl_amended (baseUrl path : String) (h : baseUrl ≠ "") :
    apxClientBuildUrl baseUrl path =
      (if jsEndsWith baseUrl "/" then baseUrl else baseUrl ++ "/") ++
        (if jsStartsWith path "/" then jsDropFirst path else path) ∧
    jsEndsWith (apxNormalizeBaseUrl baseUrl) "/" = true := by
  have hb : (baseUrl == "") = false := by simp [h]
  constructor
  · unfold apxClientBuildUrl apxBuildUrl apxNormalizeBaseUrl
    rw [hb]
    cases hE : jsEndsWith baseUrl "/" <;> simp [hE]
  · unfold apxNormalizeBaseUrl
    rw [hb]
    cases hE : jsEndsWith baseUrl "/"
    · simp only [hE, Bool.not_false, Bool.and_self, if_pos]
      unfold jsEndsWith
      rw [String.data_append]
      exact isSuffixOf_append_self _ _
    · simp [hE]

/-- C10 (witness): the amended statement evaluated at a concrete base URL
and path. -/
theorem buildUrl_amended_witness :
    ("api" : String) ≠ "" ∧
    (apxClientBuildUrl "api" "/x" =
      (if jsEndsWith "api" "/" then "api" else "api" ++ "/") ++
        (if jsStartsWith "/x" "/" then jsDropFirst "/x" else "/x") ∧
      jsEndsWith (apxNormalizeBaseUrl "api") "/" = true) :=
  ⟨by decide, buildUrl_amended "api" "/x" (by decide)⟩

/-- C2: in all three classification branches (request, response, model) a
property whose raw node has a truthy `$ref` and is not named by the owning
schema's `required` list resolves as nullable, and a property named by the
`required` list always resolves as non-nullable, overriding both an
explicit nullable flag and the reference default. -/
theorem nullability_resolution (enumNames : List String)
    (required : Option (List String)) (propertyName : String) (r : RawProp) :
    (jsTruthyStr r.ref = true → (required.getD []).contains propertyName = false →
      ((mkRequestProperty enumNames required propertyName r).nullable = true ∧
       (mkResponseProperty enumNames required propertyName r).nullable = true ∧
       (mkModelProperty enumNames required propertyName r).nullable = true)) ∧
    ((required.getD []).contains propertyName = true →
      ((mkRequestProperty enumNames required propertyName r).nullable = false ∧
       (mkResponseProperty enumNames required propertyName r).nullable = false ∧
       (mkModelProperty enumNames required propertyName r).nullable = false)) := by
  have hnull :
      (jsTruthyStr r.ref = true →
        (required.getD []).contains propertyName = false →
        resolveNullable required propertyName r = true) ∧
      ((required.getD []).contains propertyName = true →
        resolveNullable required propertyName r = false) := by
    cases required with
    | none =>
      refine ⟨fun h1 _ => ?_, fun h2 => absurd h2 Bool.false_ne_true⟩
      unfold resolveNullable
      simp [h1]
    | some req =>
      refine ⟨fun h1 h2 => ?_, fun h2 => ?_⟩
      · simp only [Option.getD_some] at h2
        simp at h2
        unfold resolveNullable
        simp [h1, h2]
      · simp only [Option.getD_some] at h2
        simp at h2
        unfold resolveNullable
        simp [h2]
  refine ⟨fun h1 h2 => ?_, fun h2 => ?_⟩
  · have hres := hnull.1 h1 h2
    exact ⟨by simp [mkRequestProperty, Property.nullable, hres],
      by simp [mkResponseProperty, mkModelProperty, Property.nullable, hres],
      by simp [mkModelProperty, Property.nullable, hres]⟩
  · have hres := hnull.2 h2
    exact ⟨by simp [mkRequestProperty, Property.nullable, hres],
      by simp [mkResponseProperty, mkModelProperty, Property.nullable, hres],
      by simp [mkModelProperty, Property.nullable, hres]⟩

/-- C2 (witness): the nullability rules evaluated at a concrete property
(`$ref` present, explicit `nullable: false`, required list naming a sibling
and then the property itself). -/
theorem nullability_resolution_witness :
    (mkRequestProperty [] (some ["q"]) "p"
        (RawProp.mk none false none (some "#/components/schemas/T") none none none)).nullable = true ∧
    (mkResponseProperty [] (some ["q"]) "p"
        (RawProp.mk none false none (some "#/components/schemas/T") none none none)).nullable = true ∧
    (mkModelProperty [] (some ["q"]) "p"
        (RawProp.mk none false none (some "#/components/schemas/T") none none none)).nullable = true ∧
    (mkRequestProperty [] (some ["q"]) "q"
        (RawProp.mk none true none (some "#/components/schemas/T") none none none)).nullable = false ∧
    (mkResponseProperty [] (some ["q"]) "q"
        (RawProp.mk none true none (some "#/components/schemas/T") none none none)).nullable = false ∧
    (mkModelProperty [] (some ["q"]) "q"
        (RawProp.mk none true none (some "#/components/schemas/T") none none none)).nullable = false := by
  have h1 := (nullability_resolution [] (some ["q"]) "p"
    (RawProp.mk none false none (some "#/components/schemas/T") none none none)).1
    (by decide) (by decide)
  have h2 := (nullability_resolution [] (some ["q"]) "q"
    (RawProp.mk none true none (some "#/components/schemas/T") none none none)).2
    (by decide)
  exact ⟨h1.1, h1.2.1, h1.2.2, h2.1, h2.2.1, h2.2.2⟩

/-- The effective type the response/model `oneOf` fallback produces for one
union member. -/
def oneOfMemberName (m : Option String) : String :=
  match m with
  | some refStr => if jsLastSeg refStr == "" then "unknown" else jsLastSeg refStr
  | none => "unknown"

/-- C4 (counterexample): in `docOneOf` the request-classified schema `Req`
and the model-classified schema `Mod` carry the same typeless `oneOf`
property, yet only the model branch resolves its type to the first union
member's name "Member"; the request branch leaves the type absent — the
fallback does not apply to request-classified schemas. -/
theorem oneof_fallback_counterexample :
    ((mapGet (classify docOneOf).requestComponents "Req").map
      (fun c => c.properties.map Property.type)) = some [none] ∧
    ((mapGet (classify docOneOf).modelComponents "Mod").map
      (fun c => c.properties.map Property.type)) = some [some "Member"] ∧
    (some [none] : Option (List (Option String))) ≠ some [some "Member"] :=
  ⟨rfl, rfl, by decide⟩

/-- C4 (amended): for a property with a falsy `type` and a non-empty
`oneOf`, the response and model branches resolve the effective type to the
first union member's reference name (or "unknown" when that member has no
usable `$ref`), while the request branch performs no fallback and keeps
the raw `type`. -/
theorem oneof_fallback_amended (enumNames : List String)
    (required : Option (List String)) (propertyName : String) (r : RawProp)
    (hT : jsTruthyStr r.type = false) (m : Option String)
    (ms : List (Option String)) (hO : r.oneOf = some (m :: ms)) :
    (mkModelProperty enumNames required propertyName r).type =
      some (oneOfMemberName m) ∧
    (mkResponseProperty enumNames required propertyName r).type =
      some (oneOfMemberName m) ∧
    (mkRequestProperty enumNames required propertyName r).type = r.type := by
  have hfb : oneOfFallbackType r = some (oneOfMemberName m) := by
    unfold oneOfFallbackType oneOfMemberName
    rw [hT, hO]
    cases m <;> simp
  refine ⟨?_, ?_, ?_⟩
  · simp [mkModelProperty, Property.type, hfb]
  · simp [mkResponseProperty, mkModelProperty, Property.type, hfb]
  · simp [mkRequestProperty, Property.type]

/-- C4 (witness): the amended fallback behaviour evaluated at the concrete
typeless `oneOf` property node. -/
theorem oneof_fallback_amended_witness :
    (mkModelProperty [] none "p" rawOneOfProp).type = some "Member" ∧
    (mkResponseProperty [] none "p" rawOneOfProp).type = some "Member" ∧
    (mkRequestProperty [] none "p" rawOneOfProp).type = rawOneOfProp.type :=
  oneof_fallback_amended [] none "p" rawOneOfProp (by decide)
    (some "#/components/schemas/Member") [] rfl

/-- C5: a model component named `Widget` renders a DTO type alias named
`TWidgetDto` followed by a value class named `Widget`; a request component
named `CreateWidget` renders exactly one flat type alias named
`TCreateWidget` — no `Dto` suffix and no companion class. -/
theorem component_naming (c r : Component) (hc : c.name = "Widget")
    (hr : r.name = "CreateWidget") :
    Component.dtoName c = "TWidgetDto" ∧
    Component.render c =
      "export type " ++ "TWidgetDto" ++ " = \x7b \n" ++ c.dtoFieldsStr ++
        "\x7d;\n" ++ "\n" ++ "export class " ++ "Widget" ++ " \x7b\n" ++
        c.classFieldsStr ++ "\n\tpublic constructor(dto: " ++ "TWidgetDto" ++
        ") \x7b" ++ c.ctorBodyStr ++ "\n\t\x7d\n\x7d" ∧
    RequestComponent.dtoName r = "TCreateWidget" ∧
    RequestComponent.render r =
      "export type T" ++ "CreateWidget" ++ " = \x7b \n" ++
        RequestComponent.fieldsStr r ++ "\x7d;" := by
  have hcap : Component.capitalizedName c = "Widget" := by
    simp only [Component.capitalizedName]
    rw [hc]
    decide
  have hdto : Component.dtoName c = "TWidgetDto" := by
    simp only [Component.dtoName]
    rw [hcap]
    decide
  refine ⟨hdto, ?_, ?_, ?_⟩
  · simp only [Component.render, Component.renderDto]
    rw [hdto, hcap]
  · simp only [RequestComponent.dtoName, Component.capitalizedName]
    rw [hr]
    decide
  · simp only [RequestComponent.render]
    rw [hr]

/-- C3: the branch `ApiPath.render` takes — and hence the emitted method
text — is dispatched exactly by the §4.5 decision table applied to the
triple (hasRequest, hasResponse, isStreamed); in particular an operation
with a linked response component, no linked request component, no path
parameters and no query parameters that is not streamed always renders the
no-request/has-response shape. -/
theorem operation_shape_decision (ctx : Ctx) (p : ApiPath) :
    ApiPath.render ctx p =
      renderForShape ctx p
        (specShapeTable (ApiPath.hasRequestShape ctx p)
          (ApiPath.responseComponent ctx p).isSome p.isStreamed) ∧
    ApiPath.selectedShape ctx p =
      specShapeTable (ApiPath.hasRequestShape ctx p)
        (ApiPath.responseComponent ctx p).isSome p.isStreamed ∧
    ((ApiPath.responseComponent ctx p).isSome = true →
      ApiPath.requestComponent ctx p = none →
      ApiPath.pathParams p = [] →
      ApiPath.queryParams p = [] →
      p.isStreamed = false →
      ApiPath.selectedShape ctx p = MethodShape.responseOnly ∧
      ApiPath.render ctx p =
        ApiPath.renderResponseOnly ctx p (ApiPath.respDtoName ctx p) p.method
          (ApiPath.finalResponseName ctx p)) := by
  refine ⟨?_, ?_, ?_⟩
  · cases hreq : ApiPath.hasRequestShape ctx p <;>
      cases hresp : (ApiPath.responseComponent ctx p).isSome <;>
      cases hstr : p.isStreamed <;>
      simp [ApiPath.render, renderForShape, specShapeTable, hreq, hresp, hstr]
  · cases hreq : ApiPath.hasRequestShape ctx p <;>
      cases hresp : (ApiPath.responseComponent ctx p).isSome <;>
      cases hstr : p.isStreamed <;>
      simp [ApiPath.selectedShape, specShapeTable, hreq, hresp, hstr]
  · intro h1 h2 h3 h4 h5
    have hreq : ApiPath.hasRequestShape ctx p = false := by
      simp [ApiPath.hasRequestShape, ApiPath.hasPathParams,
        ApiPath.hasQueryParams, h2, h3, h4]
    exact ⟨by simp [ApiPath.selectedShape, hreq, h1],
      by simp [ApiPath.render, hreq, h1]⟩

/-- C3 (witness): the decision evaluated for a concrete operation with a
linked response component and no request side. -/
theorem operation_shape_decision_witness :
    ApiPath.selectedShape ctxThing apiPathThing = MethodShape.responseOnly ∧
    ApiPath.render ctxThing apiPathThing =
      ApiPath.renderResponseOnly ctxThing apiPathThing
        (ApiPath.respDtoName ctxThing apiPathThing) apiPathThing.method
        (ApiPath.finalResponseName ctxThing apiPathThing) :=
  (operation_shape_decision ctxThing apiPathThing).2.2 rfl rfl rfl rfl rfl

/-- C5 (witness): the naming round-trip evaluated at the concrete
components `widgetComponent` and `createWidgetComponent`. -/
theorem component_naming_witness :
    Component.dtoName widgetComponent = "TWidgetDto" ∧
    Component.render widgetComponent =
      "export type " ++ "TWidgetDto" ++ " = \x7b \n" ++
        widgetComponent.dtoFieldsStr ++ "\x7d;\n" ++ "\n" ++
        "export class " ++ "Widget" ++ " \x7b\n" ++
        widgetComponent.classFieldsStr ++ "\n\tpublic constructor(dto: " ++
        "TWidgetDto" ++ ") \x7b" ++ widgetComponent.ctorBodyStr ++
        "\n\t\x7d\n\x7d" ∧
    RequestComponent.dtoName createWidgetComponent = "TCreateWidget" ∧
    RequestComponent.render createWidgetComponent =
      "export type T" ++ "CreateWidget" ++ " = \x7b \n" ++
        RequestComponent.fieldsStr createWidgetComponent ++ "\x7d;" :=
  component_naming widgetComponent createWidgetComponent rfl rfl

end Apx
